import Mathlib

/-!
Verification of the GeoSpatial-Backend repository.

The repository consists of a distance-calculator utility module
(exporting TRAVEL_SPEEDS, calculateDistance, formatDistance,
calculateTravelTime, formatTravelTime) and three server variants that
map those functions over a batch of candidate places and sort the
results by distance with nulls last.

Embedding conventions:
* JavaScript numbers are modelled as elements of a linear ordered field
  with a floor structure; the purely arithmetic functions are stated and
  evaluated at `ℚ`, while the haversine distance (which uses sin, cos,
  atan2 and sqrt) and the request handlers that call it live at `ℝ`.
* `Math.round` is rounding half toward positive infinity, which is
  Mathlib `round`; `Math.floor` is `Int.floor`; the JavaScript `%`
  operator (truncated remainder) is `jsFmod`; `Number.prototype.toFixed(1)`
  is `toFixed1` (nearest, ties toward the larger value, per ECMA-262).
* `parseFloat` results that may be `NaN` are modelled as `Option` values,
  `none` standing for an invalid (non-finite) parse.
* `Array.prototype.sort` with the repository comparator is modelled as
  insertion sort using the comparator, which matches the comparison-sort
  behaviour observed for the (at most 20) results a handler produces.
-/

/-- Travel speed constants in km/h, from the utility module:
`TRAVEL_SPEEDS = {walking: 5, cycling: 15, driving: 40}`.
A lookup of any other key yields `undefined`, modelled as `none`. -/
def TRAVEL_SPEEDS (mode : String) : Option Nat :=
  if mode = "walking" then some 5
  else if mode = "cycling" then some 15
  else if mode = "driving" then some 40
  else none

/-- Embeds `calculateTravelTime(distanceKm, mode)` from the utility module:
`speed = TRAVEL_SPEEDS[mode] || TRAVEL_SPEEDS.walking` (the `||` fallback
fires exactly when the lookup is `undefined`, since every table entry is a
nonzero number; `TRAVEL_SPEEDS.walking = 5`), then
`timeInMinutes = (distanceKm / speed) * 60`. -/
def calculateTravelTime {α : Type} [LinearOrderedField α] (distanceKm : α) (mode : String) : α :=
  let speed : α := ((TRAVEL_SPEEDS mode).getD 5 : Nat)
  let timeInHours := distanceKm / speed
  let timeInMinutes := timeInHours * 60
  timeInMinutes

/-- JavaScript truncation toward zero, as used by the `%` operator. -/
def jsTrunc {α : Type} [LinearOrderedField α] [FloorRing α] (q : α) : ℤ :=
  if 0 ≤ q then ⌊q⌋ else ⌈q⌉

/-- The JavaScript remainder operator `x % y`: `x - y * trunc(x / y)`
(result carries the sign of the dividend). -/
def jsFmod {α : Type} [LinearOrderedField α] [FloorRing α] (x y : α) : α :=
  x - y * (jsTrunc (x / y) : α)

/-- `Number.prototype.toFixed(1)` for the magnitudes produced by this
repository: the integer `n` with `n / 10` closest to the argument, ties
resolved toward the larger `n` (ECMA-262), printed with one digit after
the decimal point. -/
def toFixed1 {α : Type} [LinearOrderedField α] [FloorRing α] (x : α) : String :=
  let n : ℤ := round (x * 10)
  if n < 0 then "-" ++ toString ((-n) / 10) ++ "." ++ toString ((-n) % 10)
  else toString (n / 10) ++ "." ++ toString (n % 10)

/-- Embeds `formatDistance(distanceKm)` from the utility module:
below 1 km it prints `Math.round(distanceKm * 1000)` metres, otherwise
`distanceKm.toFixed(1)` kilometres. -/
def formatDistance {α : Type} [LinearOrderedField α] [FloorRing α] (distanceKm : α) : String :=
  if distanceKm < 1 then
    toString (round (distanceKm * 1000)) ++ " m"
  else
    toFixed1 distanceKm ++ " km"

/-- Embeds `formatTravelTime(minutes)` from the utility module:
`minutes < 1` prints a fixed string, `minutes < 60` prints the rounded
minutes, otherwise `hours = Math.floor(minutes / 60)` and
`remainingMinutes = Math.round(minutes % 60)` are rendered, with the
plural `s` on `hour` exactly when `hours > 1`. -/
def formatTravelTime {α : Type} [LinearOrderedField α] [FloorRing α] (minutes : α) : String :=
  if minutes < 1 then
    "Less than 1 min"
  else if minutes < 60 then
    toString (round minutes) ++ " mins"
  else
    let hours : ℤ := ⌊minutes / 60⌋
    let remainingMinutes : ℤ := round (jsFmod minutes 60)
    if remainingMinutes = 0 then
      (if hours = 1 then "1 hour" else toString hours ++ " hours")
    else
      toString hours ++ " hour" ++ (if 1 < hours then "s" else "") ++ " " ++
        toString remainingMinutes ++ " mins"

/-- For a nonnegative dividend the JavaScript remainder by 60 is the
floor-based remainder. -/
theorem jsFmod_sixty_of_nonneg {α : Type} [LinearOrderedField α] [FloorRing α]
    (m : α) (hm : 0 ≤ m) : jsFmod m 60 = m - 60 * (⌊m / 60⌋ : α) := by
  have h : (0 : α) ≤ m / 60 := by positivity
  simp [jsFmod, jsTrunc, if_pos h]

/-- C3: calculateTravelTime divides by the speed of the table entry for the
mode (walking 5, cycling 15, driving 40 km/h) and multiplies by 60; any mode
outside the table behaves exactly like walking; 10 km driving is 15 minutes
and zero distance is zero minutes for every mode. -/
theorem calculateTravelTime_speed_table :
    (∀ km : ℚ,
      calculateTravelTime km "walking" = km / 5 * 60 ∧
      calculateTravelTime km "cycling" = km / 15 * 60 ∧
      calculateTravelTime km "driving" = km / 40 * 60) ∧
    (∀ (km : ℚ) (mode : String),
      mode ≠ "walking" → mode ≠ "cycling" → mode ≠ "driving" →
      calculateTravelTime km mode = calculateTravelTime km "walking") ∧
    calculateTravelTime (10 : ℚ) "driving" = 15 ∧
    (∀ mode : String, calculateTravelTime (0 : ℚ) mode = 0) := by
  refine ⟨fun km => ⟨?_, ?_, ?_⟩, fun km mode h1 h2 h3 => ?_, ?_, fun mode => ?_⟩
  · simp [calculateTravelTime, show TRAVEL_SPEEDS "walking" = some 5 from rfl]
  · norm_num [calculateTravelTime, show TRAVEL_SPEEDS "cycling" = some 15 from rfl]
  · norm_num [calculateTravelTime, show TRAVEL_SPEEDS "driving" = some 40 from rfl]
  · simp [calculateTravelTime, TRAVEL_SPEEDS, h1, h2, h3]
  · norm_num [calculateTravelTime, show TRAVEL_SPEEDS "driving" = some 40 from rfl]
  · simp [calculateTravelTime]

/-- Witness for C3 at concrete inputs: an unrecognized mode string falls back
to the walking speed. -/
theorem calculateTravelTime_speed_table_witness :
    calculateTravelTime (10 : ℚ) "unknown-mode" = calculateTravelTime (10 : ℚ) "walking" :=
  calculateTravelTime_speed_table.2.1 10 "unknown-mode"
    (by decide) (by decide) (by decide)

/-- C4: formatDistance renders kilometres below 1 as rounded metres with the
suffix " m" and otherwise with exactly one decimal digit and the suffix
" km"; the boundary 1.0 takes the kilometre branch, and the three reference
inputs format as stated. -/
theorem formatDistance_meters_km :
    (∀ km : ℚ, km < 1 → formatDistance km = toString (round (km * 1000)) ++ " m") ∧
    (∀ km : ℚ, 1 ≤ km → formatDistance km =
      toString (round (km * 10) / 10) ++ "." ++ toString (round (km * 10) % 10) ++ " km") ∧
    formatDistance ((1 : ℚ) / 2) = "500 m" ∧
    formatDistance (1 : ℚ) = "1.0 km" ∧
    formatDistance (2.567 : ℚ) = "2.6 km" := by
  have hkmBranch : ∀ km : ℚ, 1 ≤ km → formatDistance km =
      toString (round (km * 10) / 10) ++ "." ++ toString (round (km * 10) % 10) ++ " km" := by
    intro km h
    have h1 : ¬ km < 1 := not_lt.mpr h
    have h2 : (10 : ℤ) ≤ round (km * 10) := by
      rw [round_eq]
      rw [Int.le_floor]
      push_cast
      linarith
    have h3 : ¬ round (km * 10) < 0 := by omega
    simp [formatDistance, toFixed1, h1, h3]
  have hmBranch : ∀ km : ℚ, km < 1 → formatDistance km = toString (round (km * 1000)) ++ " m" :=
    fun km h => by simp [formatDistance, h]
  refine ⟨hmBranch, hkmBranch, ?_, ?_, ?_⟩
  · rw [hmBranch ((1 : ℚ) / 2) (by norm_num)]
    rw [show round ((1 : ℚ) / 2 * 1000) = 500 from by rw [round_eq]; norm_num [Int.floor_eq_iff]]
    rfl
  · rw [hkmBranch 1 le_rfl]
    rw [show round ((1 : ℚ) * 10) = 10 from by norm_num]
    rfl
  · rw [hkmBranch 2.567 (by norm_num)]
    rw [show round ((2.567 : ℚ) * 10) = 26 from by rw [round_eq]; norm_num [Int.floor_eq_iff]]
    rfl

/-- Witness for C4 at concrete inputs, exercising both the hypothesis of the
metre branch and the hypothesis of the kilometre branch. -/
theorem formatDistance_meters_km_witness :
    formatDistance ((1 : ℚ) / 4) = toString (round ((1 : ℚ) / 4 * 1000)) ++ " m" ∧
    formatDistance (3 : ℚ) =
      toString (round ((3 : ℚ) * 10) / 10) ++ "." ++ toString (round ((3 : ℚ) * 10) % 10) ++ " km" :=
  ⟨formatDistance_meters_km.1 ((1 : ℚ) / 4) (by norm_num),
   formatDistance_meters_km.2.1 3 (by norm_num)⟩

/-- C5: the three branches of formatTravelTime. Below one minute a fixed
string; from 1 to below 60 the rounded minutes with a plural suffix; from 60
upward the split into floor hours and rounded remainder of the division by
60, with "1 hour"/"n hours" when the remainder rounds to 0 and otherwise
hours (plural s exactly when more than one) followed by the remainder. -/
theorem formatTravelTime_branches (m : ℚ) :
    (m < 1 → formatTravelTime m = "Less than 1 min") ∧
    (1 ≤ m → m < 60 → formatTravelTime m = toString (round m) ++ " mins") ∧
    (60 ≤ m → formatTravelTime m =
      (if round (m - 60 * (⌊m / 60⌋ : ℚ)) = 0 then
        (if (⌊m / 60⌋ : ℤ) = 1 then "1 hour" else toString (⌊m / 60⌋ : ℤ) ++ " hours")
      else
        toString (⌊m / 60⌋ : ℤ) ++ " hour" ++ (if 1 < (⌊m / 60⌋ : ℤ) then "s" else "") ++ " " ++
          toString (round (m - 60 * (⌊m / 60⌋ : ℚ))) ++ " mins")) := by
  refine ⟨fun h => by simp [formatTravelTime, h], fun h1 h2 => ?_, fun h => ?_⟩
  · have h1' : ¬ m < 1 := not_lt.mpr h1
    simp [formatTravelTime, h1', h2]
  · have h1 : ¬ m < 1 := by push_neg; linarith
    have h2 : ¬ m < 60 := not_lt.mpr h
    have h3 : jsFmod m 60 = m - 60 * (⌊m / 60⌋ : ℚ) := jsFmod_sixty_of_nonneg m (by linarith)
    simp only [formatTravelTime, h1, if_false, h2, h3]

/-- Witness for C5 at the reference inputs 0.5, 45, 90 and 120. -/
theorem formatTravelTime_branches_witness :
    formatTravelTime ((1 : ℚ) / 2) = "Less than 1 min" ∧
    formatTravelTime (45 : ℚ) = "45 mins" ∧
    formatTravelTime (90 : ℚ) = "1 hour 30 mins" ∧
    formatTravelTime (120 : ℚ) = "2 hours" := by
  refine ⟨(formatTravelTime_branches ((1 : ℚ) / 2)).1 (by norm_num), ?_, ?_, ?_⟩
  · rw [(formatTravelTime_branches (45 : ℚ)).2.1 (by norm_num) (by norm_num)]
    rw [show round (45 : ℚ) = 45 from by norm_num]
    rfl
  · rw [(formatTravelTime_branches (90 : ℚ)).2.2 (by norm_num)]
    rw [show (⌊(90 : ℚ) / 60⌋ : ℤ) = 1 from by norm_num [Int.floor_eq_iff]]
    rw [show round ((90 : ℚ) - 60 * ((1 : ℤ) : ℚ)) = 30 from by push_cast; norm_num]
    rfl
  · rw [(formatTravelTime_branches (120 : ℚ)).2.2 (by norm_num)]
    rw [show (⌊(120 : ℚ) / 60⌋ : ℤ) = 2 from by norm_num [Int.floor_eq_iff]]
    rw [show round ((120 : ℚ) - 60 * ((2 : ℤ) : ℚ)) = 0 from by push_cast; norm_num]
    rfl

/-- C1: when the rounded remainder of the division by 60 reaches 60, the
overflow is not carried into the hours: the minutes position renders the
literal 60 next to the floor of the hours, and in particular 119.6 minutes
formats as "1 hour 60 mins" and not as "2 hours". -/
theorem formatTravelTime_sixtyMinutes_noCarry :
    (∀ m : ℚ, 60 ≤ m → round (m - 60 * (⌊m / 60⌋ : ℚ)) = 60 →
      formatTravelTime m =
        toString (⌊m / 60⌋ : ℤ) ++ " hour" ++ (if 1 < (⌊m / 60⌋ : ℤ) then "s" else "") ++
          " " ++ "60" ++ " mins") ∧
    formatTravelTime (119.6 : ℚ) = "1 hour 60 mins" ∧
    formatTravelTime (119.6 : ℚ) ≠ "2 hours" := by
  have hgen : ∀ m : ℚ, 60 ≤ m → round (m - 60 * (⌊m / 60⌋ : ℚ)) = 60 →
      formatTravelTime m =
        toString (⌊m / 60⌋ : ℤ) ++ " hour" ++ (if 1 < (⌊m / 60⌋ : ℤ) then "s" else "") ++
          " " ++ "60" ++ " mins" := by
    intro m hm hr
    have h1 : ¬ m < 1 := by push_neg; linarith
    have h2 : ¬ m < 60 := not_lt.mpr hm
    have h3 : jsFmod m 60 = m - 60 * (⌊m / 60⌋ : ℚ) := jsFmod_sixty_of_nonneg m (by linarith)
    simp only [formatTravelTime, h1, if_false, h2, h3, hr]
    rfl
  have hfloor : (⌊(119.6 : ℚ) / 60⌋ : ℤ) = 1 := by norm_num [Int.floor_eq_iff]
  have hround : round ((119.6 : ℚ) - 60 * ((⌊(119.6 : ℚ) / 60⌋ : ℤ) : ℚ)) = 60 := by
    rw [hfloor]
    rw [round_eq]
    push_cast
    norm_num [Int.floor_eq_iff]
  have hval : formatTravelTime (119.6 : ℚ) = "1 hour 60 mins" := by
    rw [hgen 119.6 (by norm_num) hround, hfloor]
    rfl
  exact ⟨hgen, hval, by rw [hval]; decide⟩

/-- Witness for C1: the general no-carry statement applied at 119.6. -/
theorem formatTravelTime_sixtyMinutes_noCarry_witness :
    formatTravelTime (119.6 : ℚ) =
      toString (⌊(119.6 : ℚ) / 60⌋ : ℤ) ++ " hour" ++
        (if 1 < (⌊(119.6 : ℚ) / 60⌋ : ℤ) then "s" else "") ++ " " ++ "60" ++ " mins" :=
  formatTravelTime_sixtyMinutes_noCarry.1 119.6 (by norm_num)
    (by rw [show (⌊(119.6 : ℚ) / 60⌋ : ℤ) = 1 from by norm_num [Int.floor_eq_iff]]
        rw [round_eq]
        push_cast
        norm_num [Int.floor_eq_iff])

/-- The sort comparator shared by every server variant:
`(a, b) => a.distanceKm === null ? 1 : b.distanceKm === null ? -1 :
a.distanceKm - b.distanceKm`, abstracted over the record type via the
`key` projection that reads the `distanceKm` field. -/
def comparePlaces {β : Type} {α : Type} [LinearOrderedField α] (key : β → Option α)
    (a b : β) : α :=
  match key a with
  | none => 1
  | some ka =>
    match key b with
    | none => -1
    | some kb => ka - kb

/-- `places.sort(comparator)` from the server variants: a comparison sort
driven by the comparator, modelled as insertion sort on the list of
records ordered by `comparator <= 0`. -/
def sortedPlaces {β : Type} {α : Type} [LinearOrderedField α] (key : β → Option α)
    (l : List β) : List β :=
  List.insertionSort (fun a b => comparePlaces key a b ≤ 0) l

/-- The order the specification demands of a sorted output: a record with a
numeric key never follows a larger numeric key, and no null-keyed record
ever precedes a numeric-keyed one. -/
def distLe {β : Type} {α : Type} [LinearOrderedField α] (key : β → Option α)
    (x y : β) : Prop :=
  match key x, key y with
  | some a, some b => a ≤ b
  | some _, none => True
  | none, none => True
  | none, some _ => False

theorem distLe_trans {β : Type} {α : Type} [LinearOrderedField α] (key : β → Option α) :
    ∀ x y z : β, distLe key x y → distLe key y z → distLe key x z := by
  intro x y z hxy hyz
  rcases hx : key x with _ | a <;> rcases hy : key y with _ | b <;>
    rcases hz : key z with _ | c <;>
    simp only [distLe, hx, hy, hz] at hxy hyz ⊢
  exact le_trans hxy hyz

theorem compare_le_imp_distLe {β : Type} {α : Type} [LinearOrderedField α]
    (key : β → Option α) : ∀ x y : β, comparePlaces key x y ≤ 0 → distLe key x y := by
  intro x y h
  rcases hx : key x with _ | ka <;> rcases hy : key y with _ | kb <;>
    simp only [comparePlaces, distLe, hx, hy] at h ⊢ <;> try trivial
  · exact absurd h (by norm_num)
  · linarith

theorem compare_not_le_imp_distLe {β : Type} {α : Type} [LinearOrderedField α]
    (key : β → Option α) : ∀ x y : β, ¬ comparePlaces key x y ≤ 0 → distLe key y x := by
  intro x y h
  rcases hx : key x with _ | ka <;> rcases hy : key y with _ | kb <;>
    simp only [comparePlaces, distLe, hx, hy] at h ⊢ <;> try trivial
  · exact absurd (by norm_num : (-1 : α) ≤ 0) h
  · linarith

/-- Inserting into a list whose elements are pairwise related by `R` keeps
that property, provided a positive comparison implies `R` forward and a
negative one implies `R` backward, and `R` is transitive. -/
theorem pairwise_orderedInsert {β : Type} (r : β → β → Prop) [DecidableRel r]
    (R : β → β → Prop)
    (hrR : ∀ x y, r x y → R x y) (hnR : ∀ x y, ¬ r x y → R y x)
    (htrans : ∀ x y z, R x y → R y z → R x z) :
    ∀ (a : β) (l : List β), l.Pairwise R → (List.orderedInsert r a l).Pairwise R := by
  intro a l
  induction l with
  | nil => intro _; simp [List.orderedInsert]
  | cons b l ih =>
    intro hp
    rcases List.pairwise_cons.mp hp with ⟨hbAll, hl⟩
    rw [List.orderedInsert]
    by_cases hab : r a b
    · rw [if_pos hab]
      refine List.pairwise_cons.mpr ⟨?_, hp⟩
      intro x hx
      rcases List.mem_cons.mp hx with rfl | hx
      · exact hrR a x hab
      · exact htrans a b x (hrR a b hab) (hbAll x hx)
    · rw [if_neg hab]
      refine List.pairwise_cons.mpr ⟨?_, ih hl⟩
      intro x hx
      have hx' : x ∈ a :: l := (List.perm_orderedInsert r a l).subset hx
      rcases List.mem_cons.mp hx' with rfl | hx''
      · exact hnR x b hab
      · exact hbAll x hx''

/-- Insertion sort produces a list pairwise related by `R` under the same
bridge hypotheses between the boolean comparison and `R`. -/
theorem pairwise_insertionSort {β : Type} (r : β → β → Prop) [DecidableRel r]
    (R : β → β → Prop)
    (hrR : ∀ x y, r x y → R x y) (hnR : ∀ x y, ¬ r x y → R y x)
    (htrans : ∀ x y z, R x y → R y z → R x z) :
    ∀ l : List β, (List.insertionSort r l).Pairwise R := by
  intro l
  induction l with
  | nil => simp [List.insertionSort]
  | cons a l ih =>
    rw [List.insertionSort]
    exact pairwise_orderedInsert r R hrR hnR htrans a _ ih

unseal Rat.mul Rat.add Rat.inv Rat.sub Rat.ofScientific in
/-- C2: the sort emits a permutation of its input in which records with a
numeric distanceKm appear in ascending key order and every null-keyed record
comes after all numeric-keyed ones; on keys [5, null, 1, null, 3] the output
is [1, 3, 5] followed by the two nulls. -/
theorem sortedPlaces_ascending_nulls_last :
    (∀ (β α : Type) [LinearOrderedField α] (key : β → Option α) (l : List β),
      (sortedPlaces key l).Perm l ∧ (sortedPlaces key l).Pairwise (distLe key)) ∧
    sortedPlaces (id : Option ℚ → Option ℚ) [some 5, none, some 1, none, some 3] =
      [some 1, some 3, some 5, none, none] := by
  refine ⟨fun β α _ key l => ⟨List.perm_insertionSort _ l, ?_⟩, by decide⟩
  exact pairwise_insertionSort _ (distLe key)
    (compare_le_imp_distLe key) (compare_not_le_imp_distLe key)
    (distLe_trans key) l

/-- `Math.atan2(y, x)` on the reals (quadrant-aware arctangent; the
signed-zero distinctions of IEEE 754 collapse in `ℝ`, and
`Math.atan2(0, 0) = 0`). -/
noncomputable def jsAtan2 (y x : ℝ) : ℝ :=
  if 0 < x then Real.arctan (y / x)
  else if x < 0 ∧ 0 ≤ y then Real.arctan (y / x) + Real.pi
  else if x < 0 ∧ y < 0 then Real.arctan (y / x) - Real.pi
  else if x = 0 ∧ 0 < y then Real.pi / 2
  else if x = 0 ∧ y < 0 then -(Real.pi / 2)
  else 0

/-- Embeds `calculateDistance(lat1, lon1, lat2, lon2)` from the utility
module: the haversine formula with Earth radius R = 6371 km, degree inputs
converted to radians. -/
noncomputable def calculateDistance (lat1 lon1 lat2 lon2 : ℝ) : ℝ :=
  let R : ℝ := 6371
  let toRadians : ℝ → ℝ := fun degrees => degrees * (Real.pi / 180)
  let lat1Rad := toRadians lat1
  let lat2Rad := toRadians lat2
  let deltaLat := toRadians (lat2 - lat1)
  let deltaLon := toRadians (lon2 - lon1)
  let a := Real.sin (deltaLat / 2) * Real.sin (deltaLat / 2) +
      Real.cos lat1Rad * Real.cos lat2Rad *
      Real.sin (deltaLon / 2) * Real.sin (deltaLon / 2)
  let c := 2 * jsAtan2 (Real.sqrt a) (Real.sqrt (1 - a))
  R * c

/-- C7: the haversine distance is symmetric in its two coordinate points. -/
theorem calculateDistance_symm (lat1 lon1 lat2 lon2 : ℝ) :
    calculateDistance lat1 lon1 lat2 lon2 = calculateDistance lat2 lon2 lat1 lon1 := by
  simp only [calculateDistance]
  rw [show (lat1 - lat2) * (Real.pi / 180) / 2 = -((lat2 - lat1) * (Real.pi / 180) / 2) from
    by ring]
  rw [show (lon1 - lon2) * (Real.pi / 180) / 2 = -((lon2 - lon1) * (Real.pi / 180) / 2) from
    by ring]
  simp only [Real.sin_neg, mul_neg, neg_mul, neg_neg]
  rw [mul_comm (Real.cos (lat2 * (Real.pi / 180))) (Real.cos (lat1 * (Real.pi / 180)))]

/-- C8: the haversine distance from any point to itself is zero. -/
theorem calculateDistance_self_eq_zero (lat lon : ℝ) :
    calculateDistance lat lon lat lon = 0 := by
  simp only [calculateDistance, sub_self, zero_mul, zero_div, Real.sin_zero, mul_zero,
    zero_add, add_zero, Real.sqrt_zero, sub_zero, Real.sqrt_one]
  simp [jsAtan2, Real.arctan_zero]

/-- The hardcoded travel mode of every server variant:
`const travelMode = "walking"`. -/
def travelMode : String := "walking"

/-- The mode whitelist of the Nominatim server variant:
`const validModes = ["walking", "cycling", "driving"]`. -/
def validModes : List String := ["walking", "cycling", "driving"]

/-- The mode actually used by the Nominatim server variant:
`validModes.includes(travelMode) ? travelMode : "walking"`. -/
def nominatimMode : String := if validModes.contains travelMode then travelMode else "walking"

/-- A candidate place as both `server.js` variants see it after their
upstream fetch-and-filter step, which keeps only entries whose `lat` and
`lng` are numbers; the opaque payload fields are summarized by `id`. -/
structure SPlace where
  id : Nat
  lat : ℝ
  lng : ℝ

/-- A response record of the `server.js` variants: the spread candidate
payload plus the four derived fields. -/
structure SResult where
  id : Nat
  lat : ℝ
  lng : ℝ
  distance : Option String
  distanceKm : Option ℝ
  travelTime : Option String
  travelTimeMinutes : Option ℝ

/-- The per-candidate body of the `places = realPlaces.map(...)` step shared
verbatim by both `server.js` variants: compute distance and travel time (with
the hardcoded walking mode) and attach the four derived fields. Every
embedded computation in the try block is total on real inputs, so the catch
branch, which would spread the payload with the four fields null, is
unreachable in the model. -/
noncomputable def sAugmentPlace (lat lng : ℝ) (place : SPlace) : SResult :=
  let distanceKm := calculateDistance lat lng place.lat place.lng
  let travelTimeMinutes := calculateTravelTime distanceKm travelMode
  { id := place.id, lat := place.lat, lng := place.lng,
    distance := some (formatDistance distanceKm),
    distanceKm := some distanceKm,
    travelTime := some (formatTravelTime travelTimeMinutes),
    travelTimeMinutes := some travelTimeMinutes }

/-- The response list of the `server.js` variants: map then sort by
`distanceKm` ascending with nulls last. -/
noncomputable def sHandlerResults (lat lng : ℝ) (places : List SPlace) : List SResult :=
  sortedPlaces SResult.distanceKm (places.map (sAugmentPlace lat lng))

/-- A raw Nominatim item as the third server variant reads it:
`place_id`, `display_name`, and the `parseFloat` results of `lat` and
`lon`, where `none` models a `NaN` parse. -/
structure NPlace where
  place_id : Nat
  lat? : Option ℝ
  lon? : Option ℝ
  display_name : String

/-- A response record of the Nominatim server variant. -/
structure NResult where
  id : Nat
  name : String
  lat : Option ℝ
  lon : Option ℝ
  address : String
  distance : Option String
  distanceKm : Option ℝ
  travelTime : Option String
  travelTimeMinutes : Option ℝ

/-- `place.display_name.split(",")[0] || "Unnamed <type>"`: the segment
before the first comma, or the fallback name when that segment is the empty
string (the only falsy string). -/
def jsPlaceName (display_name ty : String) : String :=
  let first := (display_name.splitOn ",").headD ""
  if first = "" then "Unnamed " ++ ty else first

/-- The per-candidate body of the `data.map(...)` step of the Nominatim
server variant: when `parseFloat` of either coordinate is `NaN` the
computation is skipped and the record keeps all four derived fields null;
otherwise distance and travel time are computed and attached. -/
noncomputable def nAugmentPlace (lat lng : ℝ) (ty : String) (place : NPlace) : NResult :=
  match place.lat?, place.lon? with
  | some placeLat, some placeLon =>
    let distanceKm := calculateDistance lat lng placeLat placeLon
    let travelTimeMinutes := calculateTravelTime distanceKm nominatimMode
    { id := place.place_id, name := jsPlaceName place.display_name ty,
      lat := some placeLat, lon := some placeLon,
      address := place.display_name,
      distance := some (formatDistance distanceKm),
      distanceKm := some distanceKm,
      travelTime := some (formatTravelTime travelTimeMinutes),
      travelTimeMinutes := some travelTimeMinutes }
  | _, _ =>
    { id := place.place_id, name := jsPlaceName place.display_name ty,
      lat := place.lat?, lon := place.lon?,
      address := place.display_name,
      distance := none, distanceKm := none,
      travelTime := none, travelTimeMinutes := none }

/-- The response list of the Nominatim server variant: map then sort by
`distanceKm` ascending with nulls last. -/
noncomputable def nHandlerResults (lat lng : ℝ) (ty : String) (places : List NPlace) :
    List NResult :=
  sortedPlaces NResult.distanceKm (places.map (nAugmentPlace lat lng ty))

/-- Sorting never adds or removes records. -/
theorem mem_sortedPlaces {β : Type} {α : Type} [LinearOrderedField α]
    (key : β → Option α) (l : List β) (x : β) :
    x ∈ sortedPlaces key l ↔ x ∈ l :=
  (List.perm_insertionSort _ l).mem_iff

/-- Walking travel time at the real numbers: distance over 5 km/h times 60,
that is, twelve minutes per kilometre. -/
theorem calculateTravelTime_walking_real (d : ℝ) :
    calculateTravelTime d "walking" = d * 12 := by
  simp only [calculateTravelTime, show TRAVEL_SPEEDS "walking" = some 5 from rfl,
    Option.getD_some]
  push_cast
  ring

/-- C6: the Nominatim handler keeps a candidate whose per-item computation
fails (an invalid parsed coordinate) in the batch: the map stage produces
exactly one output record per candidate, positionally, and a failed
candidate keeps its identity while all four derived fields are null; the
server.js map stage likewise preserves the batch length. -/
theorem nearbyPlaces_keeps_failed_items :
    ∀ (lat lng : ℝ) (ty : String) (places : List NPlace),
      (places.map (nAugmentPlace lat lng ty)).length = places.length ∧
      (∀ (i : Nat) (h1 : i < places.length)
        (h2 : i < (places.map (nAugmentPlace lat lng ty)).length),
        (places.map (nAugmentPlace lat lng ty)).get ⟨i, h2⟩ =
          nAugmentPlace lat lng ty (places.get ⟨i, h1⟩)) ∧
      (∀ p : NPlace, p.lat? = none ∨ p.lon? = none →
        (nAugmentPlace lat lng ty p).id = p.place_id ∧
        (nAugmentPlace lat lng ty p).distance = none ∧
        (nAugmentPlace lat lng ty p).distanceKm = none ∧
        (nAugmentPlace lat lng ty p).travelTime = none ∧
        (nAugmentPlace lat lng ty p).travelTimeMinutes = none) ∧
      (∀ places2 : List SPlace,
        (places2.map (sAugmentPlace lat lng)).length = places2.length) := by
  intro lat lng ty places
  refine ⟨List.length_map places _, fun i h1 h2 => ?_, fun p hp => ?_, fun places2 =>
    List.length_map places2 _⟩
  · simp [List.get_eq_getElem, List.getElem_map]
  · obtain ⟨pid, platq, plonq, dn⟩ := p
    rcases hp with h | h
    · subst h
      exact ⟨rfl, rfl, rfl, rfl, rfl⟩
    · subst h
      cases platq with
      | none => exact ⟨rfl, rfl, rfl, rfl, rfl⟩
      | some v => exact ⟨rfl, rfl, rfl, rfl, rfl⟩

/-- Witness for C6: a candidate whose latitude fails to parse is kept, with
its id intact and all four derived fields null. -/
theorem nearbyPlaces_keeps_failed_items_witness :
    (nAugmentPlace 0 0 "school" ⟨7, none, some 2, "A,B"⟩).id = 7 ∧
    (nAugmentPlace 0 0 "school" ⟨7, none, some 2, "A,B"⟩).distance = none ∧
    (nAugmentPlace 0 0 "school" ⟨7, none, some 2, "A,B"⟩).distanceKm = none ∧
    (nAugmentPlace 0 0 "school" ⟨7, none, some 2, "A,B"⟩).travelTime = none ∧
    (nAugmentPlace 0 0 "school" ⟨7, none, some 2, "A,B"⟩).travelTimeMinutes = none :=
  (nearbyPlaces_keeps_failed_items 0 0 "school" []).2.2.1
    ⟨7, none, some 2, "A,B"⟩ (Or.inl rfl)

/-- C9: in every record a handler returns, the four derived fields are null
or non-null together, keyed on distanceKm. -/
theorem nearbyPlaces_derived_fields_consistent :
    (∀ (lat lng : ℝ) (ty : String) (places : List NPlace) (r : NResult),
      r ∈ nHandlerResults lat lng ty places →
        ((r.distanceKm = none ↔ r.distance = none) ∧
         (r.distanceKm = none ↔ r.travelTimeMinutes = none) ∧
         (r.distanceKm = none ↔ r.travelTime = none))) ∧
    (∀ (lat lng : ℝ) (places : List SPlace) (r : SResult),
      r ∈ sHandlerResults lat lng places →
        ((r.distanceKm = none ↔ r.distance = none) ∧
         (r.distanceKm = none ↔ r.travelTimeMinutes = none) ∧
         (r.distanceKm = none ↔ r.travelTime = none))) := by
  constructor
  · intro lat lng ty places r hr
    have hr' : r ∈ places.map (nAugmentPlace lat lng ty) :=
      (mem_sortedPlaces _ _ r).mp hr
    obtain ⟨p, hp, rfl⟩ := List.mem_map.mp hr'
    obtain ⟨pid, platq, plonq, dn⟩ := p
    cases platq <;> cases plonq <;> simp [nAugmentPlace]
  · intro lat lng places r hr
    have hr' : r ∈ places.map (sAugmentPlace lat lng) :=
      (mem_sortedPlaces _ _ r).mp hr
    obtain ⟨p, hp, rfl⟩ := List.mem_map.mp hr'
    simp [sAugmentPlace]

/-- Witness for C9: the membership hypothesis discharged on a one-element
batch whose single candidate has an unparseable longitude. -/
theorem nearbyPlaces_derived_fields_consistent_witness :
    ((nAugmentPlace 0 0 "bank" ⟨8, some 1, none, "B"⟩).distanceKm = none ↔
      (nAugmentPlace 0 0 "bank" ⟨8, some 1, none, "B"⟩).distance = none) ∧
    ((nAugmentPlace 0 0 "bank" ⟨8, some 1, none, "B"⟩).distanceKm = none ↔
      (nAugmentPlace 0 0 "bank" ⟨8, some 1, none, "B"⟩).travelTimeMinutes = none) ∧
    ((nAugmentPlace 0 0 "bank" ⟨8, some 1, none, "B"⟩).distanceKm = none ↔
      (nAugmentPlace 0 0 "bank" ⟨8, some 1, none, "B"⟩).travelTime = none) :=
  nearbyPlaces_derived_fields_consistent.1 0 0 "bank" [⟨8, some 1, none, "B"⟩]
    (nAugmentPlace 0 0 "bank" ⟨8, some 1, none, "B"⟩)
    (by simp [nHandlerResults, sortedPlaces, List.insertionSort, List.orderedInsert])

/-- C10: every handler hardcodes the walking mode, so a returned record with
a numeric distanceKm carries travelTimeMinutes equal to distanceKm times 12
(60 minutes divided by the 5 km/h walking speed). -/
theorem nearbyPlaces_walking_rate :
    (∀ (lat lng : ℝ) (ty : String) (places : List NPlace) (r : NResult),
      r ∈ nHandlerResults lat lng ty places →
      ∀ d : ℝ, r.distanceKm = some d → r.travelTimeMinutes = some (d * 12)) ∧
    (∀ (lat lng : ℝ) (places : List SPlace) (r : SResult),
      r ∈ sHandlerResults lat lng places →
      ∀ d : ℝ, r.distanceKm = some d → r.travelTimeMinutes = some (d * 12)) := by
  constructor
  · intro lat lng ty places r hr d hd
    have hr' : r ∈ places.map (nAugmentPlace lat lng ty) :=
      (mem_sortedPlaces _ _ r).mp hr
    obtain ⟨p, hp, rfl⟩ := List.mem_map.mp hr'
    obtain ⟨pid, platq, plonq, dn⟩ := p
    cases platq with
    | none => simp [nAugmentPlace] at hd
    | some plat =>
      cases plonq with
      | none => simp [nAugmentPlace] at hd
      | some plon =>
        simp only [nAugmentPlace, Option.some.injEq] at hd ⊢
        rw [show nominatimMode = "walking" from rfl, calculateTravelTime_walking_real, hd]
  · intro lat lng places r hr d hd
    have hr' : r ∈ places.map (sAugmentPlace lat lng) :=
      (mem_sortedPlaces _ _ r).mp hr
    obtain ⟨p, hp, rfl⟩ := List.mem_map.mp hr'
    simp only [sAugmentPlace, Option.some.injEq] at hd ⊢
    rw [show travelMode = "walking" from rfl, calculateTravelTime_walking_real, hd]

/-- Witness for C10: the membership and non-null-distance hypotheses
discharged on a one-element batch processed by the server.js map-and-sort
pipeline. -/
theorem nearbyPlaces_walking_rate_witness :
    (sAugmentPlace 0 0 ⟨1, 0, 0⟩).travelTimeMinutes =
      some (calculateDistance 0 0 0 0 * 12) :=
  nearbyPlaces_walking_rate.2 0 0 [⟨1, 0, 0⟩] (sAugmentPlace 0 0 ⟨1, 0, 0⟩)
    (by simp [sHandlerResults, sortedPlaces, List.insertionSort, List.orderedInsert])
    (calculateDistance 0 0 0 0) rfl
